import Mathlib

/-!
The program gstPipelinePerf: argument validation, worker fan-out and the timing report.

A shallow embedding of `sample/kpi/gstPipelinePerf.c`.

* A C string is a `String`, one `Char` per `char`; a `gchar *` that may be `NULL` is an
  `Option String`.
* `int` and `long` values are `Int`; the `gdouble` cells of `runTime` are rationals.
* The multimedia framework is a record of answers (`Framework`): which elements it manages to
  create, whether a chain links, whether the pipeline starts, and the two clock readings.  Every
  worker has its own record.  The blocking calls (`g_main_loop_run`, `pthread_join`) are taken to
  come back: `busCallback` quits the loop at the end of the stream and on an error message.
* Memory safety is not modelled: `sprintf` writes its whole text whatever the size of the buffer
  (the size is `outputNameSize`), and the array declared at line 301 has no effect.
* A local of `thread_entry` that no arm has assigned is `none`; reading it has no meaning in C, and
  the model ends the worker there with the outcome `unassigned`.
* A worker acts on the shared array `runTime` through the list of its stores.  `main` applies the
  stores of the workers in index order; each worker stores only into its own cell, so the cells
  after the joins do not depend on the interleaving.
-/

namespace GstPipelinePerf

/-! ## Library functions -/

/-- The constant `OUTPUT_NAME_MAX_STRLEN` of line 39. -/
def OUTPUT_NAME_MAX_STRLEN : Nat := 300

/-- The libc `strcmp`, on the characters of two strings: zero, negative or positive. -/
def strcmp : List Char → List Char → Int
  | [], [] => 0
  | [], _ :: _ => -1
  | _ :: _, [] => 1
  | a :: as, b :: bs => if a = b then strcmp as bs else if a.val < b.val then -1 else 1

/-- GLib's `g_strcmp0`: `strcmp` that accepts `NULL`, which sorts before every string. -/
def g_strcmp0 : Option String → Option String → Int
  | none, none => 0
  | none, some _ => -1
  | some _, none => 1
  | some a, some b => strcmp a.data b.data

/-- The libc `isspace` in the C locale: space, and the control characters 9 to 13. -/
def isspace (c : Char) : Bool :=
  c.val = 32 || (9 ≤ c.val && c.val ≤ 13)

/-- Value of the longest run of decimal digits at the head of the text, on top of `acc`. -/
def digitRun : Int → List Char → Int
  | acc, [] => acc
  | acc, c :: cs => if c.isDigit then digitRun (acc * 10 + ((c.toNat : Int) - 48)) cs else acc

/-- The libc `strtol` in base 10 on a 64-bit `long`: blanks, an optional sign, digits; a value
out of range is replaced by the nearest bound. -/
def strtol10 (s : List Char) : Int :=
  let v : Int :=
    match s.dropWhile isspace with
    | c :: r =>
      if c = '-' then - digitRun 0 r
      else if c = '+' then digitRun 0 r
      else digitRun 0 (c :: r)
    | [] => 0
  max (-(2 ^ 63)) (min v (2 ^ 63 - 1))

/-- The libc `atoi`: `strtol` in base 10, converted to a 32-bit `int`. -/
def atoi (s : String) : Int :=
  (strtol10 s.data + 2 ^ 31) % 2 ^ 32 - 2 ^ 31

/-- The `strnlen_s` of the safe string library: the length of the string, capped at `dmax`;
zero when `dmax` is zero or larger than the library's limit of 4096. -/
def strnlen_s (s : String) (dmax : Nat) : Nat :=
  if dmax = 0 ∨ 4096 < dmax then 0 else min s.length dmax

/-- Decimal digits of `n`, most significant first, in front of `acc`; `fuel` bounds the number
of digits produced. -/
def decimalLoop : Nat → Nat → List Char → List Char
  | 0, _, acc => acc
  | fuel + 1, n, acc =>
    if n < 10 then Nat.digitChar n :: acc
    else decimalLoop fuel (n / 10) (Nat.digitChar (n % 10) :: acc)

/-- The text `printf` produces for `%d`. -/
def printf_d (i : Int) : String :=
  if i < 0 then ⟨'-' :: decimalLoop (i.natAbs + 1) i.natAbs []⟩
  else ⟨decimalLoop (i.natAbs + 1) i.natAbs []⟩

/-- The text `sprintf (buf, "%s-%d", s, i)` writes, without its terminating byte. -/
def sprintf_s_d (s : String) (i : Int) : String :=
  s ++ "-" ++ printf_d i

/-! ## Data model -/

/-- The argument block `Params` of lines 41 to 51. -/
structure Params where
  pipeline : Option String
  source : Option String
  sink : Option String
  buffers : Int
  decoder : Option String
  encoder : Option String
  caps : Option String
  thread : Int
deriving DecidableEq

/-- A `struct timeval`. -/
structure Timeval where
  tv_sec : Int
  tv_usec : Int
deriving DecidableEq

/-- What the multimedia framework answers to one worker. -/
structure Framework where
  /-- Whether `gst_pipeline_new` returns a pipeline, by name. -/
  pipeline_new : String → Bool
  /-- Whether `gst_element_factory_make` returns an element, by factory and name. -/
  factory_make : String → String → Bool
  /-- Whether `gst_element_link_many` links the chain, given as its factories. -/
  link_many : List String → Bool
  /-- Whether setting the pipeline to playing does not fail. -/
  set_state_playing : Bool
  /-- The clock read before the pipeline is started. -/
  startTime : Timeval
  /-- The clock read after the main loop has come back. -/
  endTime : Timeval

/-- An element pointer once assigned: the factory it was requested from and whether the
framework returned an element rather than `NULL`. -/
structure Element where
  factory : String
  created : Bool
deriving DecidableEq

/-- The call `gst_pipeline_new (name)`. -/
def gst_pipeline_new (fw : Framework) (name : String) : Element :=
  ⟨"pipeline", fw.pipeline_new name⟩

/-- The call `gst_element_factory_make (factory, name)`. -/
def gst_element_factory_make (fw : Framework) (factory name : String) : Element :=
  ⟨factory, fw.factory_make factory name⟩

/-- How a worker ends. -/
inductive Outcome where
  /-- The branch `Unsupported pipeline` of line 225. -/
  | unsupported
  /-- A local that no arm assigned is read. -/
  | unassigned
  /-- The branch `Failed to create element`. -/
  | createFailed
  /-- The branch `Failed to link element`. -/
  | linkFailed
  /-- The branch `Failed to set pipeline to playing state`. -/
  | stateFailed
  /-- The function reaches its end, line 267. -/
  | returned
deriving DecidableEq

/-- A value given to `g_object_set`. -/
inductive Value where
  | str (s : Option String)
  | int (i : Int)
deriving DecidableEq

/-- What one run of `thread_entry` did. -/
structure ThreadResult where
  outcome : Outcome
  /-- The factories of the elements given to `gst_element_link_many`, in order, once called. -/
  linked : Option (List String)
  /-- The text given to `gst_caps_from_string`, once called. -/
  caps_params : Option String
  /-- The properties set with `g_object_set`: element name, property, value. -/
  props : List (String × String × Value)
  /-- The stores into `runTime`, in order: index and value. -/
  writes : List (Int × Int)

/-- A call `main` makes into the framework or the thread library. -/
inductive Call where
  | gst_init
  | pthread_create (i : Int)
  | pthread_join (i : Int)
deriving DecidableEq

/-- What one run of `main` did. -/
structure MainResult where
  /-- The value `main` returns. -/
  exitCode : Int
  /-- The framework and thread calls of `main`, in order. -/
  calls : List Call
  /-- The argument blocks given to `pthread_create`, in order. -/
  created : List Params
  /-- The runs of the workers, in index order. -/
  workers : List ThreadResult
  /-- The array `runTime` when `main` returns. -/
  runTime : Int → ℚ
  /-- The per-thread times printed, in seconds. -/
  reported : List ℚ
  /-- The average printed, in seconds; `none` when nothing is printed or the quotient is `0/0`. -/
  average : Option ℚ

/-! ## The worker, lines 89 to 268 -/

/-- The test `!a || !b || ...` over element pointers, left to right: `some true` when one is
`NULL`, `none` when an unassigned one is reached first. -/
def anyNull : List (Option Element) → Option Bool
  | [] => some false
  | none :: _ => none
  | some e :: rest => if e.created then anyNull rest else some true

/-- The factories of the assigned elements of a list. -/
def factories (es : List (Option Element)) : List String :=
  es.filterMap (Option.map Element.factory)

/-- The parser and decoder chosen at lines 109 to 118 and 153 to 162. -/
def selectDecoder (fw : Framework) (decoder : Option String) : Option Element × Option Element :=
  if g_strcmp0 decoder (some "h264") = 0 then
    (some (gst_element_factory_make fw "h264parse" "parser"),
     some (gst_element_factory_make fw "vaapih264dec" "decoder"))
  else if g_strcmp0 decoder (some "h265") = 0 then
    (some (gst_element_factory_make fw "h265parse" "parser"),
     some (gst_element_factory_make fw "vaapih265dec" "decoder"))
  else (none, none)

/-- The encoder chosen at lines 164 to 175. -/
def selectEncoder (fw : Framework) (encoder : Option String) : Option Element :=
  if g_strcmp0 encoder (some "h264") = 0 then
    some (gst_element_factory_make fw "vaapih264enc" "encoder")
  else if g_strcmp0 encoder (some "h265") = 0 then
    some (gst_element_factory_make fw "vaapih265enc" "encoder")
  else if g_strcmp0 encoder (some "jpeg") = 0 then
    some (gst_element_factory_make fw "vaapijpegenc" "encoder")
  else none

/-- The caps text chosen at lines 179 to 186. -/
def selectCaps (caps : Option String) : Option String :=
  if g_strcmp0 caps (some "dma") = 0 then some "video/x-raw(memory:DMABuf)"
  else if g_strcmp0 caps (some "sys") = 0 then some "video/x-raw"
  else none

/-- The sink of the decode pipeline, lines 120 to 127. -/
def selectSinkDec (fw : Framework) (sink : Option String) : Element :=
  if sink = none then gst_element_factory_make fw "fakesink" "sink"
  else gst_element_factory_make fw "filesink" "sink"

/-- The sink of the transcode pipeline, lines 191 to 202. -/
def selectSinkTrans (fw : Framework) (sink encoder : Option String) : Element :=
  if sink = none then gst_element_factory_make fw "fakesink" "sink"
  else if sink ≠ none ∧ g_strcmp0 encoder (some "jpeg") = 0 then
    gst_element_factory_make fw "multifilesink" "sink"
  else gst_element_factory_make fw "filesink" "sink"

/-- The properties set at lines 230 to 241. -/
def locationProps (p : Params) : List (String × String × Value) :=
  [("source", "location", Value.str p.source)]
    ++ (if 0 < p.buffers then [("source", "num-buffers", Value.int p.buffers)] else [])
    ++ (if p.sink ≠ none then [("sink", "location", Value.str p.sink)] else [])

/-- The value stored at lines 258 and 259: the microseconds between two clock readings. -/
def elapsed (startTime endTime : Timeval) : Int :=
  (endTime.tv_sec - startTime.tv_sec) * 1000000 + (endTime.tv_usec - startTime.tv_usec)

/-- Lines 229 to 267: set the locations, start the pipeline, run the loop and store the
elapsed microseconds in `runTime[thread]`. -/
def play (fw : Framework) (p : Params) (linked : List String) (caps_params : Option String)
    (props : List (String × String × Value)) : ThreadResult :=
  let thread := p.thread
  let props := props ++ locationProps p
  let startTime := fw.startTime
  if fw.set_state_playing = false then
    ⟨Outcome.stateFailed, some linked, caps_params, props, []⟩
  else
    let endTime := fw.endTime
    ⟨Outcome.returned, some linked, caps_params, props, [(thread, elapsed startTime endTime)]⟩

/-- The function `thread_entry`. -/
def thread_entry (fw : Framework) (p : Params) : ThreadResult :=
  if g_strcmp0 p.pipeline (some "dec") = 0 then
    let pipeline := gst_pipeline_new fw "decode-pipeline"
    let source := gst_element_factory_make fw "filesrc" "source"
    let parser := (selectDecoder fw p.decoder).1
    let decoder := (selectDecoder fw p.decoder).2
    let sink := selectSinkDec fw p.sink
    match anyNull [some pipeline, some source, parser, decoder, some sink] with
    | none => ⟨Outcome.unassigned, none, none, [], []⟩
    | some true => ⟨Outcome.createFailed, none, none, [], []⟩
    | some false =>
      let chain := factories [some source, parser, decoder, some sink]
      if fw.link_many chain = false then
        ⟨Outcome.linkFailed, some chain, none, [], []⟩
      else play fw p chain none []
  else if g_strcmp0 p.pipeline (some "trans") = 0 then
    let pipeline := gst_pipeline_new fw "transcode-pipeline"
    let source := gst_element_factory_make fw "filesrc" "source"
    let parser := (selectDecoder fw p.decoder).1
    let decoder := (selectDecoder fw p.decoder).2
    let encoder := selectEncoder fw p.encoder
    let caps := gst_element_factory_make fw "capsfilter" "caps"
    match selectCaps p.caps with
    | none => ⟨Outcome.unassigned, none, none, [], []⟩
    | some caps_params =>
      let props := [("caps", "caps", Value.str (some caps_params))]
      let sink := selectSinkTrans fw p.sink p.encoder
      match anyNull [some pipeline, some source, parser, decoder, some caps, encoder,
          some sink] with
      | none => ⟨Outcome.unassigned, none, some caps_params, props, []⟩
      | some true => ⟨Outcome.createFailed, none, some caps_params, props, []⟩
      | some false =>
        let chain := factories [some source, parser, decoder, some caps, encoder, some sink]
        if fw.link_many chain = false then
          ⟨Outcome.linkFailed, some chain, some caps_params, props, []⟩
        else play fw p chain (some caps_params) props
  else
    ⟨Outcome.unsupported, none, none, [], []⟩

/-! ## The function `main`, lines 271 to 392 -/

/-- The buffer `main` allocates for an output name, in bytes (lines 352 and 353). -/
def outputNameSize (output : String) : Nat :=
  strnlen_s output OUTPUT_NAME_MAX_STRLEN + 6

/-- The pointer `outputName` after lines 354 to 361. -/
def outputName (output : String) (i : Int) : Option String :=
  if g_strcmp0 (some output) (some "NULL") = 0 then none
  else some (sprintf_s_d output i)

/-- The argument block filled at lines 363 to 370 for thread `i`. -/
def inputElement (a1 a2 a3 a4 a7 a8 : String) (numBuffers : Int) (i : Int) : Params where
  sink := outputName a8 i
  pipeline := some a1
  source := some a4
  buffers := numBuffers
  decoder := some a2
  encoder := some a3
  caps := some a7
  thread := i

/-- The loop indices `0, 1, ..., numThreads - 1` of the three loops of `main`. -/
def threadIndices (numThreads : Int) : List Int :=
  (List.range numThreads.toNat).map Int.ofNat

/-- One store `runTime[w.1] = w.2`, the integer converted to `gdouble`. -/
def store (runTime : Int → ℚ) (w : Int × Int) : Int → ℚ :=
  Function.update runTime w.1 (w.2 : ℚ)

/-- The array after the stores of one worker. -/
def stores (runTime : Int → ℚ) (r : ThreadResult) : Int → ℚ :=
  r.writes.foldl store runTime

/-- The runs of the workers created for the given argument blocks. -/
def runWorkers (fw : Int → Framework) (created : List Params) : List ThreadResult :=
  created.map (fun p => thread_entry (fw p.thread) p)

/-- The accumulation `totalTime += runTime[i]` of lines 381 to 385, from `0.0`. -/
def totalTime (numThreads : Int) (runTime : Int → ℚ) : ℚ :=
  (threadIndices numThreads).foldl (fun total i => total + runTime i) 0

/-- The average printed at line 387, in seconds; `0.0 / 0` is not a number. -/
def averageTime (numThreads : Int) (runTime : Int → ℚ) : Option ℚ :=
  if numThreads = 0 then none
  else some (totalTime numThreads runTime / (numThreads : ℚ) / 1000000)

/-- A run of `main` that returns `-1` from one of the validation branches. -/
def rejected (runTime : Int → ℚ) : MainResult :=
  ⟨-1, [], [], [], runTime, [], none⟩

/-- Lines 344 to 391 of `main`: start the framework, create the workers, join them and report. -/
def runThreads (a1 a2 a3 a4 a7 a8 : String) (numBuffers numThreads : Int)
    (fw : Int → Framework) (heap : Int → ℚ) : MainResult :=
  let created := (threadIndices numThreads).map (inputElement a1 a2 a3 a4 a7 a8 numBuffers)
  let workers := runWorkers fw created
  let runTime := workers.foldl stores heap
  { exitCode := 0
    calls := [Call.gst_init] ++ (threadIndices numThreads).map Call.pthread_create
      ++ (threadIndices numThreads).map Call.pthread_join
    created := created
    workers := workers
    runTime := runTime
    reported := (threadIndices numThreads).map (fun i => runTime i / 1000000)
    average := averageTime numThreads runTime }

/-- The function `main`.  Here `heap` is the content of `runTime` after lines 306 and 307. -/
def main (argv : List String) (fw : Int → Framework) (heap : Int → ℚ) : MainResult :=
  match argv with
  | [_, a1, a2, a3, a4, a5, a6, a7, a8] =>
    let numBuffers := atoi a5
    let numThreads := atoi a6
    if ¬ (g_strcmp0 (some a1) (some "dec") = 0 ∨ g_strcmp0 (some a1) (some "trans") = 0) then
      rejected heap
    else if g_strcmp0 (some a1) (some "dec") = 0 ∧ ¬ (g_strcmp0 (some a3) (some "NULL") = 0) then
      rejected heap
    else if g_strcmp0 (some a1) (some "trans") = 0 ∧
        ¬ (g_strcmp0 (some a3) (some "h264") = 0 ∨ g_strcmp0 (some a3) (some "h265") = 0 ∨
          g_strcmp0 (some a3) (some "jpeg") = 0) then
      rejected heap
    else if ¬ (g_strcmp0 (some a2) (some "h264") = 0 ∨ g_strcmp0 (some a2) (some "h265") = 0) then
      rejected heap
    else if ¬ (g_strcmp0 (some a7) (some "dma") = 0 ∨ g_strcmp0 (some a7) (some "sys") = 0) then
      rejected heap
    else runThreads a1 a2 a3 a4 a7 a8 numBuffers numThreads fw heap
  | _ => rejected heap

/-! ## The wording of the specification -/

/-- The argument vectors the usage text allows: nine entries, pipeline `dec` with encoder `NULL`
or pipeline `trans` with encoder `h264`, `h265` or `jpeg`, decoder `h264` or `h265`, memory `dma`
or `sys`. -/
def Allowed (argv : List String) : Prop :=
  argv.length = 9 ∧
  ((argv.getD 1 "" = "dec" ∧ argv.getD 3 "" = "NULL") ∨
    (argv.getD 1 "" = "trans" ∧
      (argv.getD 3 "" = "h264" ∨ argv.getD 3 "" = "h265" ∨ argv.getD 3 "" = "jpeg"))) ∧
  (argv.getD 2 "" = "h264" ∨ argv.getD 2 "" = "h265") ∧
  (argv.getD 7 "" = "dma" ∨ argv.getD 7 "" = "sys")

instance (argv : List String) : Decidable (Allowed argv) := by
  unfold Allowed; infer_instance

/-- The chain the description of the pipelines gives: source, parser, decoder, then for
transcoding a caps filter and the encoder, then the sink. -/
def describedChain (pipeline decoder encoder : String) (sink : Option String) : List String :=
  let pd := if decoder = "h264" then ["h264parse", "vaapih264dec"] else ["h265parse", "vaapih265dec"]
  let e := if encoder = "h264" then "vaapih264enc"
    else if encoder = "h265" then "vaapih265enc" else "vaapijpegenc"
  let s := if sink = none then "fakesink"
    else if pipeline = "trans" ∧ encoder = "jpeg" then "multifilesink" else "filesink"
  if pipeline = "dec" then ["filesrc"] ++ pd ++ [s]
  else ["filesrc"] ++ pd ++ ["capsfilter", e, s]

/-- The caps text the description gives for a memory type. -/
def describedCaps (memory : String) : String :=
  if memory = "dma" then "video/x-raw(memory:DMABuf)" else "video/x-raw"

/-! ## Sample inputs -/

/-- A framework that creates every element, links every chain and plays for 2.5 seconds. -/
def fwWorks : Framework where
  pipeline_new := fun _ => true
  factory_make := fun _ _ => true
  link_many := fun _ => true
  set_state_playing := true
  startTime := ⟨100, 250000⟩
  endTime := ⟨102, 750000⟩

/-- A framework without the hardware decoders: `vaapih264dec` and `vaapih265dec` are not
created. -/
def fwNoDecoder : Framework where
  pipeline_new := fun _ => true
  factory_make := fun factory _ => ! (factory = "vaapih264dec" || factory = "vaapih265dec")
  link_many := fun _ => true
  set_state_playing := true
  startTime := ⟨100, 250000⟩
  endTime := ⟨102, 750000⟩

/-- An array `runTime` whose cells all hold `7`. -/
def heapSevens : Int → ℚ := fun _ => 7

/-- A transcode run to JPEG with one thread and no output file. -/
def argvTrans : List String :=
  ["gstPipelinePerf", "trans", "h265", "jpeg", "in.h265", "30", "1", "dma", "NULL"]

/-! ## String comparison -/

lemma strcmp_eq_zero_iff : ∀ a b : List Char, strcmp a b = 0 ↔ a = b
  | [], [] => by simp [strcmp]
  | [], _ :: _ => by simp [strcmp]
  | _ :: _, [] => by simp [strcmp]
  | a :: as, b :: bs => by
    by_cases h : a = b
    · subst h
      simp [strcmp, strcmp_eq_zero_iff as bs]
    · by_cases h2 : a.val < b.val <;> simp [strcmp, h, h2]

lemma g_strcmp0_eq_zero_iff (a b : String) : g_strcmp0 (some a) (some b) = 0 ↔ a = b := by
  simp only [g_strcmp0, strcmp_eq_zero_iff]
  constructor
  · intro h
    exact String.ext h
  · intro h
    rw [h]

/-! ## Validation in `main` -/

lemma allowed_nine (a0 a1 a2 a3 a4 a5 a6 a7 a8 : String) :
    Allowed [a0, a1, a2, a3, a4, a5, a6, a7, a8] ↔
      ((a1 = "dec" ∧ a3 = "NULL") ∨
        (a1 = "trans" ∧ (a3 = "h264" ∨ a3 = "h265" ∨ a3 = "jpeg"))) ∧
      (a2 = "h264" ∨ a2 = "h265") ∧ (a7 = "dma" ∨ a7 = "sys") := by
  simp [Allowed]

lemma dec_ne_trans : ("dec" : String) ≠ "trans" := by decide

lemma main_nine (a0 a1 a2 a3 a4 a5 a6 a7 a8 : String) (fw : Int → Framework)
    (heap : Int → ℚ) :
    main [a0, a1, a2, a3, a4, a5, a6, a7, a8] fw heap =
      if Allowed [a0, a1, a2, a3, a4, a5, a6, a7, a8] then
        runThreads a1 a2 a3 a4 a7 a8 (atoi a5) (atoi a6) fw heap
      else rejected heap := by
  have hne := dec_ne_trans
  simp only [main, g_strcmp0_eq_zero_iff, allowed_nine]
  by_cases c1 : a1 = "dec" ∨ a1 = "trans"
  swap
  · rw [if_pos c1, if_neg (by tauto)]
  rw [if_neg (not_not.2 c1)]
  by_cases c2 : a1 = "dec" ∧ ¬ a3 = "NULL"
  · rw [if_pos c2, if_neg]
    rintro ⟨⟨h1, h2⟩ | ⟨h1, _⟩, _⟩
    · exact c2.2 h2
    · exact hne (c2.1.symm.trans h1)
  rw [if_neg c2]
  by_cases c3 : a1 = "trans" ∧ ¬ (a3 = "h264" ∨ a3 = "h265" ∨ a3 = "jpeg")
  · rw [if_pos c3, if_neg]
    rintro ⟨⟨h1, _⟩ | ⟨_, h2⟩, _⟩
    · exact hne (h1.symm.trans c3.1)
    · exact c3.2 h2
  rw [if_neg c3]
  by_cases c4 : a2 = "h264" ∨ a2 = "h265"
  swap
  · rw [if_pos c4, if_neg (by tauto)]
  rw [if_neg (not_not.2 c4)]
  by_cases c5 : a7 = "dma" ∨ a7 = "sys"
  swap
  · rw [if_pos c5, if_neg (by tauto)]
  rw [if_neg (not_not.2 c5), if_pos]
  refine ⟨?_, c4, c5⟩
  rcases c1 with h | h
  · left
    exact ⟨h, by_contra fun h3 => c2 ⟨h, h3⟩⟩
  · right
    exact ⟨h, by_contra fun h3 => c3 ⟨h, h3⟩⟩

lemma main_accepted (a0 a1 a2 a3 a4 a5 a6 a7 a8 : String) (fw : Int → Framework)
    (heap : Int → ℚ) (h : Allowed [a0, a1, a2, a3, a4, a5, a6, a7, a8]) :
    main [a0, a1, a2, a3, a4, a5, a6, a7, a8] fw heap =
      runThreads a1 a2 a3 a4 a7 a8 (atoi a5) (atoi a6) fw heap := by
  rw [main_nine, if_pos h]

/-! ## Decimal output -/

lemma decimalLoop_eq_digits : ∀ (fuel n : Nat) (acc : List Char), n < fuel → 0 < n →
    decimalLoop fuel n acc = ((Nat.digits 10 n).reverse.map Nat.digitChar) ++ acc := by
  intro fuel
  induction fuel with
  | zero => intro n acc h; exact absurd h (Nat.not_lt_zero n)
  | succ fuel ih =>
    intro n acc hn hpos
    by_cases h10 : n < 10
    · simp [decimalLoop, h10, Nat.digits_of_lt 10 n hpos.ne.symm h10]
    · have hq : 0 < n / 10 := Nat.div_pos (Nat.le_of_not_lt h10) (by norm_num)
      have hlt : n / 10 < fuel := by omega
      rw [decimalLoop, if_neg h10, ih (n / 10) _ hlt hq,
        Nat.digits_def' (by norm_num : 1 < 10) hpos]
      simp

/-- The digits `printf` writes for a natural number. -/
lemma decimalLoop_self (n : Nat) :
    decimalLoop (n + 1) n [] =
      if n = 0 then [Nat.digitChar 0] else (Nat.digits 10 n).reverse.map Nat.digitChar := by
  by_cases h : n = 0
  · subst h
    simp [decimalLoop]
  · rw [if_neg h, decimalLoop_eq_digits (n + 1) n [] (Nat.lt_succ_self n) (Nat.pos_of_ne_zero h)]
    simp

lemma decimalLoop_self_length (n : Nat) : (decimalLoop (n + 1) n []).length ≤ 4 ↔ n ≤ 9999 := by
  by_cases h : n = 0
  · subst h
    simp [decimalLoop]
  · rw [decimalLoop_self, if_neg h, List.length_map, List.length_reverse]
    have h1 := Nat.lt_base_pow_length_digits (b := 10) (m := n) (by norm_num)
    have h2 := Nat.base_pow_length_digits_le 10 n (by norm_num) h
    constructor
    · intro hl
      have : 10 ^ (Nat.digits 10 n).length ≤ 10 ^ 4 := Nat.pow_le_pow_right (by norm_num) hl
      omega
    · intro hn
      by_contra hl
      have : 10 ^ 5 ≤ 10 ^ (Nat.digits 10 n).length :=
        Nat.pow_le_pow_right (by norm_num) (by omega)
      omega

/-! ## Claims on validation -/

lemma foldl_add_eq_sum (f : Int → ℚ) : ∀ (l : List Int) (a : ℚ),
    l.foldl (fun total i => total + f i) a = a + (l.map f).sum
  | [], a => by simp
  | i :: l, a => by
    simp only [List.foldl_cons, List.map_cons, List.sum_cons]
    rw [foldl_add_eq_sum f l (a + f i), add_assoc]

lemma totalTime_eq_sum (numThreads : Int) (runTime : Int → ℚ) :
    totalTime numThreads runTime = ∑ k in Finset.range numThreads.toNat, runTime (k : Int) := by
  rw [totalTime, foldl_add_eq_sum, zero_add, threadIndices, List.map_map]
  induction numThreads.toNat with
  | zero => simp
  | succ n ih =>
    rw [List.range_succ, List.map_append, List.sum_append, ih, Finset.sum_range_succ]
    simp

/-- C4: for `N ≥ 1` threads and any content of the array after the joins, the average `main`
prints is the sum of the cells `0` to `N - 1` divided by `N`, and by 1,000,000 to give seconds,
with the `gdouble` arithmetic read as exact rational arithmetic. -/
theorem averageTime_is_mean (N : Int) (runTime : Int → ℚ) (hN : 1 ≤ N) :
    averageTime N runTime =
        some ((∑ k in Finset.range N.toNat, runTime (k : Int)) / (N : ℚ) / 1000000) ∧
      ∀ (a0 a1 a2 a3 a4 a5 a6 a7 a8 : String) (fw : Int → Framework) (heap : Int → ℚ),
        Allowed [a0, a1, a2, a3, a4, a5, a6, a7, a8] → atoi a6 = N →
        (main [a0, a1, a2, a3, a4, a5, a6, a7, a8] fw heap).average =
          averageTime N (main [a0, a1, a2, a3, a4, a5, a6, a7, a8] fw heap).runTime := by
  constructor
  · have h0 : N ≠ 0 := by omega
    rw [averageTime, if_neg h0, totalTime_eq_sum]
  · intro a0 a1 a2 a3 a4 a5 a6 a7 a8 fw heap h hn
    rw [main_accepted _ _ _ _ _ _ _ _ _ fw heap h, ← hn]
    rfl

/-- Witness of C4: two threads. -/
theorem averageTime_is_mean_witness :
    (1 : Int) ≤ 2 ∧ averageTime 2 heapSevens =
      some ((∑ k in Finset.range (2 : Int).toNat, heapSevens (k : Int)) / ((2 : Int) : ℚ)
        / 1000000) :=
  ⟨by decide, (averageTime_is_mean 2 heapSevens (by decide)).1⟩

lemma outputName_of_ne {output : String} (h : output ≠ "NULL") (i : Int) :
    outputName output i = some (sprintf_s_d output i) := by
  rw [outputName, if_neg]
  rw [g_strcmp0_eq_zero_iff]
  exact h

/-- C9: for an output argument of at most 300 characters other than `NULL` and a thread index
`i ≥ 0`, the name `<output>-<i>` with its terminating byte fits in the buffer of
`strnlen_s (output, 300) + 6` bytes exactly when `i ≤ 9999`. -/
theorem outputName_fits_iff (output : String) (i : Int) (hL : output.length ≤ 300)
    (hN : output ≠ "NULL") (hi : 0 ≤ i) :
    ∃ name, outputName output i = some name ∧
      (name.length + 1 ≤ outputNameSize output ↔ i ≤ 9999) := by
  refine ⟨sprintf_s_d output i, outputName_of_ne hN i, ?_⟩
  have hi' : ¬ i < 0 := by omega
  have hlen : (printf_d i).length = (decimalLoop (i.natAbs + 1) i.natAbs []).length := by
    simp only [printf_d, if_neg hi']
    rfl
  have hsz : outputNameSize output = output.length + 6 := by
    simp [outputNameSize, strnlen_s, OUTPUT_NAME_MAX_STRLEN, hL]
  have hd := decimalLoop_self_length i.natAbs
  have hone : ("-" : String).length = 1 := rfl
  rw [hsz, sprintf_s_d, String.length_append, String.length_append, hlen, hone]
  omega

/-- Witness of C9: output `out` and thread index 10000, one digit too many. -/
theorem outputName_fits_iff_witness :
    ("out" : String).length ≤ 300 ∧ ("out" : String) ≠ "NULL" ∧ (0 : Int) ≤ 10000 ∧
    ∃ name, outputName "out" 10000 = some name ∧
      (name.length + 1 ≤ outputNameSize "out" ↔ (10000 : Int) ≤ 9999) :=
  ⟨by decide, by decide, by decide, outputName_fits_iff "out" 10000 (by decide) (by decide)
    (by decide)⟩


/-! ## The worker -/

lemma play_writes (fw : Framework) (p : Params) (l : List String) (c : Option String)
    (pr : List (String × String × Value)) :
    ((play fw p l c pr).outcome = Outcome.returned ∧
        (play fw p l c pr).writes = [(p.thread, elapsed fw.startTime fw.endTime)]) ∨
      ((play fw p l c pr).outcome = Outcome.stateFailed ∧ (play fw p l c pr).writes = []) := by
  unfold play
  split_ifs
  · right; exact ⟨rfl, rfl⟩
  · left; exact ⟨rfl, rfl⟩

lemma thread_entry_writes_cases (fw : Framework) (p : Params) :
    ((thread_entry fw p).outcome = Outcome.returned ∧
        (thread_entry fw p).writes = [(p.thread, elapsed fw.startTime fw.endTime)]) ∨
      ((thread_entry fw p).outcome ≠ Outcome.returned ∧ (thread_entry fw p).writes = []) := by
  have hp : ∀ l c pr, ((play fw p l c pr).outcome = Outcome.returned ∧
        (play fw p l c pr).writes = [(p.thread, elapsed fw.startTime fw.endTime)]) ∨
      ((play fw p l c pr).outcome ≠ Outcome.returned ∧ (play fw p l c pr).writes = []) := by
    intro l c pr
    rcases play_writes fw p l c pr with h | h
    · exact Or.inl h
    · exact Or.inr ⟨by rw [h.1]; decide, h.2⟩
  generalize hr : thread_entry fw p = r
  simp only [thread_entry] at hr
  repeat' (split at hr)
  all_goals subst hr
  all_goals first
    | exact hp _ _ _
    | exact Or.inr ⟨by simp, rfl⟩

lemma mem_created {a1 a2 a3 a4 a7 a8 : String} {nb n : Int} {p : Params}
    (hp : p ∈ (threadIndices n).map (inputElement a1 a2 a3 a4 a7 a8 nb)) :
    ∃ i : Int, p = inputElement a1 a2 a3 a4 a7 a8 nb i := by
  obtain ⟨i, _, hi⟩ := List.mem_map.1 hp
  exact ⟨i, hi.symm⟩

lemma play_fields (fw : Framework) (p : Params) (l : List String) (c : Option String)
    (pr : List (String × String × Value)) :
    ((play fw p l c pr).outcome = Outcome.stateFailed ∨
        (play fw p l c pr).outcome = Outcome.returned) ∧
      (play fw p l c pr).linked = some l ∧ (play fw p l c pr).caps_params = c := by
  unfold play
  split_ifs
  · exact ⟨Or.inl rfl, rfl, rfl⟩
  · exact ⟨Or.inr rfl, rfl, rfl⟩

/-- The decode branch once parser and decoder are assigned. -/
lemma thread_entry_dec (fw : Framework) (p : Params) (hp : p.pipeline = some "dec")
    (P D : Element) (hsel : selectDecoder fw p.decoder = (some P, some D)) :
    ((thread_entry fw p).outcome = Outcome.createFailed ∧ (thread_entry fw p).linked = none ∧
        ¬ ((gst_pipeline_new fw "decode-pipeline").created = true ∧
          fw.factory_make "filesrc" "source" = true ∧ P.created = true ∧ D.created = true ∧
          (selectSinkDec fw p.sink).created = true) ∨
      ((thread_entry fw p).outcome = Outcome.linkFailed ∨
          (thread_entry fw p).outcome = Outcome.stateFailed ∨
          (thread_entry fw p).outcome = Outcome.returned) ∧
        (thread_entry fw p).linked =
          some ["filesrc", P.factory, D.factory, (selectSinkDec fw p.sink).factory]) ∧
      (thread_entry fw p).caps_params = none := by
  have h0 : g_strcmp0 p.pipeline (some "dec") = 0 := by
    rw [hp, g_strcmp0_eq_zero_iff]
  generalize hr : thread_entry fw p = r
  simp only [thread_entry, if_pos h0, hsel, anyNull, factories, List.filterMap_cons,
    List.filterMap_nil, Option.map_some', gst_element_factory_make] at hr
  have hplay := play_fields fw p
    ["filesrc", P.factory, D.factory, (selectSinkDec fw p.sink).factory] none []
  repeat' (split at hr)
  all_goals subst hr
  all_goals first
    | exact ⟨Or.inr ⟨Or.inl rfl, rfl⟩, rfl⟩
    | exact ⟨Or.inr ⟨Or.inr hplay.1, hplay.2.1⟩, hplay.2.2⟩
    | (refine ⟨Or.inl ⟨rfl, rfl, ?_⟩, rfl⟩
       rintro ⟨c1, c2, c3, c4, c5⟩
       rename_i heq
       simp [c1, c2, c3, c4, c5] at heq)
    | (exfalso; rename_i heq; revert heq; split_ifs <;> simp)

/-- The transcode branch once parser, decoder, encoder and caps are assigned. -/
lemma thread_entry_trans (fw : Framework) (p : Params) (hp : p.pipeline = some "trans")
    (P D E : Element) (c : String) (hsel : selectDecoder fw p.decoder = (some P, some D))
    (henc : selectEncoder fw p.encoder = some E) (hcaps : selectCaps p.caps = some c) :
    ((thread_entry fw p).outcome = Outcome.createFailed ∧ (thread_entry fw p).linked = none ∧
        ¬ ((gst_pipeline_new fw "transcode-pipeline").created = true ∧
          fw.factory_make "filesrc" "source" = true ∧ P.created = true ∧ D.created = true ∧
          fw.factory_make "capsfilter" "caps" = true ∧ E.created = true ∧
          (selectSinkTrans fw p.sink p.encoder).created = true) ∨
      ((thread_entry fw p).outcome = Outcome.linkFailed ∨
          (thread_entry fw p).outcome = Outcome.stateFailed ∨
          (thread_entry fw p).outcome = Outcome.returned) ∧
        (thread_entry fw p).linked =
          some ["filesrc", P.factory, D.factory, "capsfilter", E.factory,
            (selectSinkTrans fw p.sink p.encoder).factory]) ∧
      (thread_entry fw p).caps_params = some c := by
  have h0 : ¬ g_strcmp0 p.pipeline (some "dec") = 0 := by
    rw [hp, g_strcmp0_eq_zero_iff]
    decide
  have h1 : g_strcmp0 p.pipeline (some "trans") = 0 := by
    rw [hp, g_strcmp0_eq_zero_iff]
  generalize hr : thread_entry fw p = r
  simp only [thread_entry, if_neg h0, if_pos h1, hsel, henc, hcaps, anyNull, factories,
    List.filterMap_cons, List.filterMap_nil, Option.map_some', gst_element_factory_make] at hr
  have hplay := play_fields fw p
    ["filesrc", P.factory, D.factory, "capsfilter", E.factory,
      (selectSinkTrans fw p.sink p.encoder).factory] (some c)
    [("caps", "caps", Value.str (some c))]
  repeat' (split at hr)
  all_goals subst hr
  all_goals first
    | exact ⟨Or.inr ⟨Or.inl rfl, rfl⟩, rfl⟩
    | exact ⟨Or.inr ⟨Or.inr hplay.1, hplay.2.1⟩, hplay.2.2⟩
    | (refine ⟨Or.inl ⟨rfl, rfl, ?_⟩, rfl⟩
       rintro ⟨c1, c2, c3, c4, c5, c6, c7⟩
       rename_i heq
       simp [c1, c2, c3, c4, c5, c6, c7] at heq)
    | (exfalso; rename_i heq; revert heq; split_ifs <;> simp)

lemma selectDecoder_allowed (fw : Framework) {a2 : String} (h2 : a2 = "h264" ∨ a2 = "h265") :
    selectDecoder fw (some a2) =
      (some (gst_element_factory_make fw (if a2 = "h264" then "h264parse" else "h265parse")
          "parser"),
        some (gst_element_factory_make fw
          (if a2 = "h264" then "vaapih264dec" else "vaapih265dec") "decoder")) := by
  have hne : ("h265" : String) ≠ "h264" := by decide
  rcases h2 with rfl | rfl
  · simp only [selectDecoder, g_strcmp0_eq_zero_iff, if_true]
  · simp only [selectDecoder, g_strcmp0_eq_zero_iff, if_neg hne, if_true]

lemma selectEncoder_allowed (fw : Framework) {a3 : String}
    (h3 : a3 = "h264" ∨ a3 = "h265" ∨ a3 = "jpeg") :
    selectEncoder fw (some a3) =
      some (gst_element_factory_make fw (if a3 = "h264" then "vaapih264enc"
        else if a3 = "h265" then "vaapih265enc" else "vaapijpegenc") "encoder") := by
  have hne1 : ("h265" : String) ≠ "h264" := by decide
  have hne2 : ("jpeg" : String) ≠ "h264" := by decide
  have hne3 : ("jpeg" : String) ≠ "h265" := by decide
  rcases h3 with rfl | rfl | rfl
  · simp only [selectEncoder, g_strcmp0_eq_zero_iff, if_true]
  · simp only [selectEncoder, g_strcmp0_eq_zero_iff, if_neg hne1, if_true]
  · simp only [selectEncoder, g_strcmp0_eq_zero_iff, if_neg hne2, if_neg hne3, if_true]

lemma selectCaps_allowed {a7 : String} (h7 : a7 = "dma" ∨ a7 = "sys") :
    selectCaps (some a7) = some (describedCaps a7) := by
  have hne : ("sys" : String) ≠ "dma" := by decide
  rcases h7 with rfl | rfl
  · simp only [selectCaps, describedCaps, g_strcmp0_eq_zero_iff, if_true]
  · simp only [selectCaps, describedCaps, g_strcmp0_eq_zero_iff, if_neg hne, if_true]

lemma selectSinkDec_factory (fw : Framework) (s : Option String) :
    (selectSinkDec fw s).factory = if s = none then "fakesink" else "filesink" := by
  unfold selectSinkDec
  split_ifs <;> rfl

lemma selectSinkTrans_factory (fw : Framework) (s : Option String) (a3 : String) :
    (selectSinkTrans fw s (some a3)).factory =
      if s = none then "fakesink" else if a3 = "jpeg" then "multifilesink" else "filesink" := by
  unfold selectSinkTrans
  simp only [g_strcmp0_eq_zero_iff]
  split_ifs <;> first | rfl | simp_all

/-- A worker of an accepted run: either an element is missing and nothing is linked, or the
described chain is given to the linker. -/
lemma thread_entry_of_allowed (a1 a2 a3 a4 a7 a8 : String) (nb i : Int) (fw : Framework)
    (h1 : (a1 = "dec" ∧ a3 = "NULL") ∨
        (a1 = "trans" ∧ (a3 = "h264" ∨ a3 = "h265" ∨ a3 = "jpeg")))
    (h2 : a2 = "h264" ∨ a2 = "h265") (h7 : a7 = "dma" ∨ a7 = "sys") :
    ((thread_entry fw (inputElement a1 a2 a3 a4 a7 a8 nb i)).outcome = Outcome.createFailed ∧
        (thread_entry fw (inputElement a1 a2 a3 a4 a7 a8 nb i)).linked = none ∧
        ¬ ((∀ f n, fw.factory_make f n = true) ∧ ∀ n, fw.pipeline_new n = true) ∨
      ((thread_entry fw (inputElement a1 a2 a3 a4 a7 a8 nb i)).outcome = Outcome.linkFailed ∨
          (thread_entry fw (inputElement a1 a2 a3 a4 a7 a8 nb i)).outcome = Outcome.stateFailed ∨
          (thread_entry fw (inputElement a1 a2 a3 a4 a7 a8 nb i)).outcome = Outcome.returned) ∧
        (thread_entry fw (inputElement a1 a2 a3 a4 a7 a8 nb i)).linked =
          some (describedChain a1 a2 a3 (outputName a8 i))) ∧
      (thread_entry fw (inputElement a1 a2 a3 a4 a7 a8 nb i)).caps_params =
        if a1 = "trans" then some (describedCaps a7) else none := by
  have hne : ("dec" : String) ≠ "trans" := by decide
  have hnj : ("NULL" : String) ≠ "jpeg" := by decide
  rcases h1 with ⟨rfl, rfl⟩ | ⟨rfl, h3⟩
  · have hb := thread_entry_dec fw (inputElement "dec" a2 "NULL" a4 a7 a8 nb i) rfl _ _
      (selectDecoder_allowed fw h2)
    have hchain : ["filesrc",
        (gst_element_factory_make fw (if a2 = "h264" then "h264parse" else "h265parse")
          "parser").factory,
        (gst_element_factory_make fw (if a2 = "h264" then "vaapih264dec" else "vaapih265dec")
          "decoder").factory,
        (selectSinkDec fw (inputElement "dec" a2 "NULL" a4 a7 a8 nb i).sink).factory] =
        describedChain "dec" a2 "NULL" (outputName a8 i) := by
      rw [selectSinkDec_factory]
      simp only [gst_element_factory_make, describedChain, inputElement, if_true]
      split_ifs <;> simp_all
    rw [hchain] at hb
    refine ⟨?_, by rw [hb.2, if_neg hne]⟩
    rcases hb.1 with ⟨ho, hl, hc⟩ | hok
    · refine Or.inl ⟨ho, hl, fun hall => hc ?_⟩
      exact ⟨hall.2 _, hall.1 _ _, hall.1 _ _, hall.1 _ _, by
        unfold selectSinkDec; split_ifs <;> exact hall.1 _ _⟩
    · exact Or.inr hok
  · have hb := thread_entry_trans fw (inputElement "trans" a2 a3 a4 a7 a8 nb i) rfl _ _ _ _
      (selectDecoder_allowed fw h2) (selectEncoder_allowed fw h3) (selectCaps_allowed h7)
    have hchain : ["filesrc",
        (gst_element_factory_make fw (if a2 = "h264" then "h264parse" else "h265parse")
          "parser").factory,
        (gst_element_factory_make fw (if a2 = "h264" then "vaapih264dec" else "vaapih265dec")
          "decoder").factory,
        "capsfilter",
        (gst_element_factory_make fw (if a3 = "h264" then "vaapih264enc"
          else if a3 = "h265" then "vaapih265enc" else "vaapijpegenc") "encoder").factory,
        (selectSinkTrans fw (inputElement "trans" a2 a3 a4 a7 a8 nb i).sink
          (inputElement "trans" a2 a3 a4 a7 a8 nb i).encoder).factory] =
        describedChain "trans" a2 a3 (outputName a8 i) := by
      have he : (inputElement "trans" a2 a3 a4 a7 a8 nb i).encoder = some a3 := rfl
      rw [he, selectSinkTrans_factory]
      simp only [gst_element_factory_make, describedChain, inputElement, if_neg hne.symm, true_and]
      split_ifs <;> simp_all
    rw [hchain] at hb
    refine ⟨?_, by rw [hb.2, if_pos rfl]⟩
    rcases hb.1 with ⟨ho, hl, hc⟩ | hok
    · refine Or.inl ⟨ho, hl, fun hall => hc ?_⟩
      exact ⟨hall.2 _, hall.1 _ _, hall.1 _ _, hall.1 _ _, hall.1 _ _, hall.1 _ _, by
        unfold selectSinkTrans; split_ifs <;> exact hall.1 _ _⟩
    · exact Or.inr hok

lemma stores_thread_entry (runTime : Int → ℚ) (fw : Framework) (p : Params) (j : Int) :
    stores runTime (thread_entry fw p) j =
      if j = p.thread ∧ (thread_entry fw p).outcome = Outcome.returned then
        (elapsed fw.startTime fw.endTime : ℚ)
      else runTime j := by
  rcases thread_entry_writes_cases fw p with ⟨ho, hw⟩ | ⟨ho, hw⟩
  · by_cases hj : j = p.thread
    · subst hj
      simp [stores, hw, store, ho]
    · simp [stores, hw, store, hj]
  · simp [stores, hw, ho]

/-- C7: a worker stores into `runTime` at most once, and only at its own thread index, so every
other cell keeps its value; a worker that fails to create its elements, to link them or to
start the pipeline stores nothing; and the stores of two workers with different indices go to
different cells. -/
theorem thread_entry_writes_own_slot (fw : Framework) (p : Params) :
    (thread_entry fw p).writes.length ≤ 1 ∧
    (∀ w ∈ (thread_entry fw p).writes, w.1 = p.thread) ∧
    (∀ (runTime : Int → ℚ) (j : Int), j ≠ p.thread →
      stores runTime (thread_entry fw p) j = runTime j) ∧
    ((thread_entry fw p).outcome = Outcome.createFailed ∨
        (thread_entry fw p).outcome = Outcome.linkFailed ∨
        (thread_entry fw p).outcome = Outcome.stateFailed →
      (thread_entry fw p).writes = [] ∧
        ∀ runTime : Int → ℚ, stores runTime (thread_entry fw p) = runTime) ∧
    (∀ (fw' : Framework) (q : Params), q.thread ≠ p.thread →
      ∀ w ∈ (thread_entry fw p).writes, ∀ w' ∈ (thread_entry fw' q).writes, w.1 ≠ w'.1) := by
  have own : ∀ (g : Framework) (q : Params), ∀ w ∈ (thread_entry g q).writes, w.1 = q.thread := by
    intro g q w hw
    rcases thread_entry_writes_cases g q with ⟨_, h⟩ | ⟨_, h⟩
    · rw [h] at hw
      rw [List.mem_singleton.1 hw]
    · rw [h] at hw
      exact absurd hw (List.not_mem_nil w)
  refine ⟨?_, own fw p, ?_, ?_, ?_⟩
  · rcases thread_entry_writes_cases fw p with ⟨_, h⟩ | ⟨_, h⟩ <;> simp [h]
  · intro runTime j hj
    rw [stores_thread_entry, if_neg (fun h => hj h.1)]
  · intro hfail
    have hnr : (thread_entry fw p).outcome ≠ Outcome.returned := by
      rcases hfail with h | h | h <;> rw [h] <;> decide
    rcases thread_entry_writes_cases fw p with ⟨ho, _⟩ | ⟨_, hw⟩
    · exact absurd ho hnr
    · exact ⟨hw, fun runTime => by simp [stores, hw]⟩
  · intro fw' q hq w hw w' hw' heq
    rw [own fw p w hw, own fw' q w' hw'] at heq
    exact hq heq.symm

/-- Witness of C7: a worker without hardware decoder fails and stores nothing. -/
theorem thread_entry_writes_own_slot_witness :
    (thread_entry fwNoDecoder (inputElement "dec" "h264" "NULL" "in" "sys" "out" 0 3)).outcome
        = Outcome.createFailed ∧
      (thread_entry fwNoDecoder (inputElement "dec" "h264" "NULL" "in" "sys" "out" 0 3)).writes
        = [] :=
  ⟨by decide, ((thread_entry_writes_own_slot fwNoDecoder
    (inputElement "dec" "h264" "NULL" "in" "sys" "out" 0 3)).2.2.2.1 (Or.inl (by decide))).1⟩

/-- C8: in an accepted run, whatever the framework answers, a worker either misses an element
and links nothing, or gives the linker the described chain: `filesrc`, parser, decoder and sink
for `dec`; `filesrc`, parser, decoder, `capsfilter`, encoder and sink for `trans`.  When the
framework creates every element the chain is linked.  The caps text is the described one for
`trans`, and no caps are made for `dec`. -/
theorem thread_entry_links_described_chain (a0 a1 a2 a3 a4 a5 a6 a7 a8 : String)
    (fws : Int → Framework) (heap : Int → ℚ)
    (h : Allowed [a0, a1, a2, a3, a4, a5, a6, a7, a8]) :
    ∀ p ∈ (main [a0, a1, a2, a3, a4, a5, a6, a7, a8] fws heap).created, ∀ fw : Framework,
      ((thread_entry fw p).outcome = Outcome.createFailed ∧ (thread_entry fw p).linked = none ∨
        (thread_entry fw p).outcome ≠ Outcome.createFailed ∧
          (thread_entry fw p).linked = some (describedChain a1 a2 a3 p.sink)) ∧
      ((∀ f n, fw.factory_make f n = true) → (∀ n, fw.pipeline_new n = true) →
        (thread_entry fw p).linked = some (describedChain a1 a2 a3 p.sink)) ∧
      (thread_entry fw p).caps_params =
        if a1 = "trans" then some (describedCaps a7) else none := by
  intro p hp fw
  rw [main_accepted _ _ _ _ _ _ _ _ _ fws heap h] at hp
  obtain ⟨i, rfl⟩ := mem_created hp
  rw [allowed_nine] at h
  have hsink : (inputElement a1 a2 a3 a4 a7 a8 (atoi a5) i).sink = outputName a8 i := rfl
  rw [hsink]
  obtain ⟨hcases, hcaps⟩ := thread_entry_of_allowed a1 a2 a3 a4 a7 a8 (atoi a5) i fw h.1 h.2.1 h.2.2
  refine ⟨?_, ?_, hcaps⟩
  · rcases hcases with ⟨ho, hl, _⟩ | ⟨ho, hl⟩
    · exact Or.inl ⟨ho, hl⟩
    · refine Or.inr ⟨?_, hl⟩
      rcases ho with ho | ho | ho <;> rw [ho] <;> decide
  · intro hf hn
    rcases hcases with ⟨_, _, hc⟩ | ⟨_, hl⟩
    · exact absurd ⟨hf, hn⟩ hc
    · exact hl

/-- Witness of C8: the transcode run to JPEG without output file, on a framework that creates
every element. -/
theorem thread_entry_links_described_chain_witness :
    Allowed argvTrans ∧
    (thread_entry fwWorks (inputElement "trans" "h265" "jpeg" "in.h265" "dma" "NULL" 30 0)).linked
      = some ["filesrc", "h265parse", "vaapih265dec", "capsfilter", "vaapijpegenc", "fakesink"] :=
  ⟨by decide, ((thread_entry_links_described_chain "gstPipelinePerf" "trans" "h265" "jpeg"
    "in.h265" "30" "1" "dma" "NULL" (fun _ => fwWorks) heapSevens (by decide)
    (inputElement "trans" "h265" "jpeg" "in.h265" "dma" "NULL" 30 0) (by decide) fwWorks).2.1
    (fun _ _ => rfl) (fun _ => rfl))⟩

/-- C10: in an accepted run no worker reaches the branch `Unsupported pipeline`, and none reads
a local that no arm assigned: parser and decoder are assigned, and for `trans` so are the
encoder and the caps text. -/
theorem accepted_assigns_every_element (a0 a1 a2 a3 a4 a5 a6 a7 a8 : String)
    (fws : Int → Framework) (heap : Int → ℚ)
    (h : Allowed [a0, a1, a2, a3, a4, a5, a6, a7, a8]) :
    (∀ p ∈ (main [a0, a1, a2, a3, a4, a5, a6, a7, a8] fws heap).created, ∀ fw : Framework,
      (thread_entry fw p).outcome ≠ Outcome.unsupported ∧
      (thread_entry fw p).outcome ≠ Outcome.unassigned ∧
      (selectDecoder fw p.decoder).1 ≠ none ∧ (selectDecoder fw p.decoder).2 ≠ none ∧
      (p.pipeline = some "trans" →
        selectEncoder fw p.encoder ≠ none ∧ selectCaps p.caps ≠ none)) ∧
    (∀ w ∈ (main [a0, a1, a2, a3, a4, a5, a6, a7, a8] fws heap).workers,
      w.outcome ≠ Outcome.unsupported ∧ w.outcome ≠ Outcome.unassigned) := by
  have hne : ("dec" : String) ≠ "trans" := by decide
  rw [main_accepted _ _ _ _ _ _ _ _ _ fws heap h]
  rw [allowed_nine] at h
  have key : ∀ (i : Int) (fw : Framework),
      (thread_entry fw (inputElement a1 a2 a3 a4 a7 a8 (atoi a5) i)).outcome
          ≠ Outcome.unsupported ∧
        (thread_entry fw (inputElement a1 a2 a3 a4 a7 a8 (atoi a5) i)).outcome
          ≠ Outcome.unassigned := by
    intro i fw
    rcases (thread_entry_of_allowed a1 a2 a3 a4 a7 a8 (atoi a5) i fw h.1 h.2.1 h.2.2).1
      with ⟨ho, _⟩ | ⟨ho | ho | ho, _⟩ <;> rw [ho] <;> exact ⟨by decide, by decide⟩
  constructor
  · intro p hp fw
    obtain ⟨i, rfl⟩ := mem_created hp
    refine ⟨(key i fw).1, (key i fw).2, ?_, ?_, ?_⟩
    · have := selectDecoder_allowed fw h.2.1
      simp only [inputElement, this]
      exact Option.some_ne_none _
    · have := selectDecoder_allowed fw h.2.1
      simp only [inputElement, this]
      exact Option.some_ne_none _
    · intro ht
      have h1 : a1 = "trans" := Option.some.inj ht
      have h3 : a3 = "h264" ∨ a3 = "h265" ∨ a3 = "jpeg" := by
        rcases h.1 with ⟨hd, _⟩ | ⟨_, h3⟩
        · exact absurd (hd.symm.trans h1) hne
        · exact h3
      constructor
      · simp only [inputElement, selectEncoder_allowed fw h3]
        exact Option.some_ne_none _
      · simp only [inputElement, selectCaps_allowed h.2.2]
        exact Option.some_ne_none _
  · intro w hw
    obtain ⟨p, hp, rfl⟩ := List.mem_map.1 hw
    obtain ⟨i, rfl⟩ := mem_created hp
    exact key i _

/-- Witness of C10: the worker of the transcode run to JPEG does not end in the unsupported
branch. -/
theorem accepted_assigns_every_element_witness :
    Allowed argvTrans ∧
    (thread_entry fwNoDecoder
      (inputElement "trans" "h265" "jpeg" "in.h265" "dma" "NULL" 30 0)).outcome
        ≠ Outcome.unsupported :=
  ⟨by decide, ((accepted_assigns_every_element "gstPipelinePerf" "trans" "h265" "jpeg"
    "in.h265" "30" "1" "dma" "NULL" (fun _ => fwWorks) heapSevens (by decide)).1
    (inputElement "trans" "h265" "jpeg" "in.h265" "dma" "NULL" 30 0) (by decide)
    fwNoDecoder).1⟩

end GstPipelinePerf
